import Mathlib

/-
Shallow embedding of the ADIS16490 Arduino/Teensy driver (ADIS16490.cpp /
ADIS16490.h).  The driver owns one piece of session state, the cached
register page, and talks to the device over chip-select-framed 16-bit SPI
exchanges.  Every chip-select-bracketed exchange is modelled as one event;
the bytes clocked in on MISO come from an oracle function together with a
running cursor, since each SPI.transfer consumes exactly one response byte.
-/

namespace ADIS16490

/-- Observable actions of the driver: a page-select exchange (bytes 0x80,
page written to the PAGE_ID register), any other chip-select framed 2-byte
exchange (the two MOSI bytes), a delayMicroseconds stall, a digitalWrite on
the reset line, and a millisecond delay. -/
inductive Ev where
  | pageSel : Nat → Ev
  | frame : Nat → Nat → Ev
  | stall : Nat → Ev
  | rstWrite : Bool → Ev
  | delayMs : Nat → Ev
deriving DecidableEq, Repr

/-- Bytes clocked out on MOSI by an event: a page select is physically the
exchange (0x80, page); other frames carry their two bytes. -/
def wireBytes : Ev → List Nat
  | Ev.pageSel p => [128, p]
  | Ev.frame b1 b2 => [b1, b2]
  | _ => []

/-- Driver session state: the cached current page (int currentPage in
ADIS16490.h) and the cursor into the MISO byte stream (each SPI.transfer
consumes one incoming byte). -/
structure IMUState where
  currentPage : Nat
  misoIdx : Nat
deriving DecidableEq, Repr

/-- ADIS16490.h: int currentPage = 0x00, fresh bus position. -/
def initialState : IMUState := ⟨0, 0⟩

/-- ADIS16490.h: int _stall = 5 (microseconds between frames). -/
def stallTime : Nat := 5

/-- Reinterpret the low 16 bits of a machine word as a signed 16-bit
value in two-complement form (the int16_t conversions in the driver). -/
def toInt16 (n : Nat) : Int :=
  if n % 65536 < 32768 then ((n % 65536 : Nat) : Int)
  else ((n % 65536 : Nat) : Int) - 65536

/-- The 16-bit two-complement bit pattern of an integer (how an int16_t
argument is seen by the bitwise operations in the driver). -/
def toUInt16 (z : Int) : Nat := (z % 65536).toNat

/-- uint8_t page = ((regAddr >> 8) & 0xFF) with the uint16_t truncation of
the regAddr parameter folded in. -/
def pageOf (regAddr : Nat) : Nat := (regAddr >>> 8) % 256

/-- uint8_t address = (regAddr & 0xFF). -/
def offsetOf (regAddr : Nat) : Nat := regAddr % 256

/- Register map constants from ADIS16490.h (the page 0 and page 3 entries
used by the driver and the example sketches). -/

/-- ADIS16490.h: DIAG_STS 0x000A. -/
def DIAG_STS : Nat := 0x000A

/-- Modelled from the spec: ALM_STS, the alarm-status register clocked out
by sensorRead between DIAG_STS and X_GYRO_OUT, is referenced by
ADIS16490.cpp but its define is absent from the sources provided; the
device register between DIAG_STS (0x000A) and TEMP_OUT (0x000E) is 0x000C.
No claim depends on its numeric value. -/
def ALM_STS : Nat := 0x000C

/-- ADIS16490.h: TEMP_OUT 0x000E. -/
def TEMP_OUT : Nat := 0x000E

/-- ADIS16490.h: X_GYRO_OUT 0x0012. -/
def X_GYRO_OUT : Nat := 0x0012

/-- ADIS16490.h: Y_GYRO_OUT 0x0016. -/
def Y_GYRO_OUT : Nat := 0x0016

/-- ADIS16490.h: Z_GYRO_OUT 0x001A. -/
def Z_GYRO_OUT : Nat := 0x001A

/-- ADIS16490.h: X_ACCL_OUT 0x001E. -/
def X_ACCL_OUT : Nat := 0x001E

/-- ADIS16490.h: Y_ACCL_OUT 0x0022. -/
def Y_ACCL_OUT : Nat := 0x0022

/-- ADIS16490.h: Z_ACCL_OUT 0x0026. -/
def Z_ACCL_OUT : Nat := 0x0026

/-- ADIS16490.h: FNCTIO_CTRL 0x0306. -/
def FNCTIO_CTRL : Nat := 0x0306

/-- ADIS16490.h: DEC_RATE 0x030C. -/
def DEC_RATE : Nat := 0x030C

/-- int16_t ADIS16490::regRead(uint16_t regAddr), ADIS16490.cpp lines
95-130.  Splits the address into page and in-page offset, lazily selects
the page (one (0x80, page) exchange plus stall, only when the cached page
differs), clocks out the address frame (offset, 0x00) whose response bytes
are discarded, stalls, clocks the data frame (0x00, 0x00) capturing the two
response bytes, stalls, and returns (high << 8) | low as a signed 16-bit
value.  The miso oracle supplies the byte returned by each SPI.transfer
(uint8_t, hence the % 256). -/
def regRead (miso : Nat → Nat) (s : IMUState) (regAddr : Nat) :
    Int × IMUState × List Ev :=
  let page := pageOf regAddr
  let selEv : List Ev :=
    if s.currentPage = page then [] else [Ev.pageSel page, Ev.stall stallTime]
  let j : Nat := if s.currentPage = page then s.misoIdx else s.misoIdx + 2
  let hi := miso (j + 2) % 256
  let lo := miso (j + 3) % 256
  (toInt16 ((hi <<< 8) ||| (lo &&& 255)),
   ⟨page, j + 4⟩,
   selEv ++ [Ev.frame (offsetOf regAddr) 0, Ev.stall stallTime,
             Ev.frame 0 0, Ev.stall stallTime])

/-- int ADIS16490::regWrite(uint16_t regAddr, int16_t regData),
ADIS16490.cpp lines 139-178.  After the same lazy page select, computes
uint16_t addr = (((address & 0x7F) | 0x80) << 8),
lowWord = addr | (regData & 0xFF),
highWord = (addr | 0x100) | ((regData >> 8) & 0xFF),
and clocks out lowWord then highWord as two framed exchanges (high byte
first inside each frame), each followed by a stall; always returns 1. -/
def regWrite (miso : Nat → Nat) (s : IMUState) (regAddr : Nat)
    (regData : Int) : Int × IMUState × List Ev :=
  let page := pageOf regAddr
  let selEv : List Ev :=
    if s.currentPage = page then [] else [Ev.pageSel page, Ev.stall stallTime]
  let j : Nat := if s.currentPage = page then s.misoIdx else s.misoIdx + 2
  let d := toUInt16 regData
  let addr := ((offsetOf regAddr &&& 127) ||| 128) <<< 8
  let lowWord := addr ||| (d &&& 255)
  let highWord := (addr ||| 256) ||| ((d >>> 8) &&& 255)
  (1,
   ⟨page, j + 4⟩,
   selEv ++ [Ev.frame (lowWord >>> 8) (lowWord &&& 255), Ev.stall stallTime,
             Ev.frame (highWord >>> 8) (highWord &&& 255), Ev.stall stallTime])

/-- int16_t *ADIS16490::sensorRead(void), ADIS16490.cpp lines 186-296.
Forces page 0 via the lazy page select (stall 10 in this path), primes the
pipeline with the DIAG_STS address, then chains nine further frames, each
clocking out the next register address (dummy 0x00 in the last) while
capturing the previous register data bytes, and assembles the nine signed
words in burst order; sb k models sensorbyte[k]. -/
def sensorRead (miso : Nat → Nat) (s : IMUState) :
    List Int × IMUState × List Ev :=
  let selEv : List Ev :=
    if s.currentPage = 0 then [] else [Ev.pageSel 0, Ev.stall 10]
  let j : Nat := if s.currentPage = 0 then s.misoIdx else s.misoIdx + 2
  let sb : Nat → Nat := fun k => miso (j + 2 + k) % 256
  ([toInt16 ((sb 0 <<< 8) ||| (sb 1 &&& 255)),
    toInt16 ((sb 2 <<< 8) ||| (sb 3 &&& 255)),
    toInt16 ((sb 4 <<< 8) ||| (sb 5 &&& 255)),
    toInt16 ((sb 6 <<< 8) ||| (sb 7 &&& 255)),
    toInt16 ((sb 8 <<< 8) ||| (sb 9 &&& 255)),
    toInt16 ((sb 10 <<< 8) ||| (sb 11 &&& 255)),
    toInt16 ((sb 12 <<< 8) ||| (sb 13 &&& 255)),
    toInt16 ((sb 14 <<< 8) ||| (sb 15 &&& 255)),
    toInt16 ((sb 16 <<< 8) ||| (sb 17 &&& 255))],
   ⟨0, j + 20⟩,
   selEv ++ [Ev.frame DIAG_STS 0, Ev.stall 10,
             Ev.frame ALM_STS 0, Ev.stall 10,
             Ev.frame X_GYRO_OUT 0, Ev.stall 10,
             Ev.frame Y_GYRO_OUT 0, Ev.stall 10,
             Ev.frame Z_GYRO_OUT 0, Ev.stall 10,
             Ev.frame X_ACCL_OUT 0, Ev.stall 10,
             Ev.frame Y_ACCL_OUT 0, Ev.stall 10,
             Ev.frame Z_ACCL_OUT 0, Ev.stall 10,
             Ev.frame TEMP_OUT 0, Ev.stall 10,
             Ev.frame 0 0, Ev.stall 10])

/-- int ADIS16490::resetDUT(uint8_t ms), ADIS16490.cpp lines 70-76:
digitalWrite(_RST, LOW); delayMicroseconds(500); digitalWrite(_RST, HIGH);
delay(ms); return 1.  The uint8_t parameter truncates ms modulo 256. -/
def resetDUT (ms : Nat) : Int × List Ev :=
  (1, [Ev.rstWrite false, Ev.stall 500, Ev.rstWrite true,
       Ev.delayMs (ms % 256)])

/-- float ADIS16490::accelScale(int16_t), ADIS16490.cpp line 307, with the
floating-point arithmetic modelled exactly over the rationals. -/
def accelScale (sensorData : Int) : ℚ := sensorData * 0.5

/-- float ADIS16490::gyroScale(int16_t), ADIS16490.cpp line 319. -/
def gyroScale (sensorData : Int) : ℚ := sensorData * 0.005

/-- float ADIS16490::tempScale(int16_t), ADIS16490.cpp line 332. -/
def tempScale (sensorData : Int) : ℚ := sensorData * 0.01429 + 25

/-- float ADIS16490::deltaAngleScale(int16_t), ADIS16490.cpp line 344. -/
def deltaAngleScale (sensorData : Int) : ℚ := sensorData * 0.022

/-- float ADIS16490::deltaVelocityScale(int16_t), ADIS16490.cpp line 356. -/
def deltaVelocityScale (sensorData : Int) : ℚ := sensorData * 6.104

/-- Recognizer for page-select events. -/
def isPageSel : Ev → Bool
  | Ev.pageSel _ => true
  | _ => false

/-- Recognizer for non-page-select framed exchanges. -/
def isFrame : Ev → Bool
  | Ev.frame _ _ => true
  | _ => false

/-- Number of page-select frames in a trace. -/
def countSel (tr : List Ev) : Nat := (tr.filter isPageSel).length

/-- The non-page-select framed exchanges of a trace, in order. -/
def framesOf (tr : List Ev) : List Ev := tr.filter isFrame

/-- Number of non-page-select framed exchanges in a trace. -/
def countFrames (tr : List Ev) : Nat := (framesOf tr).length

/-- A single-register transport operation: a register read or a register
write, as invoked by callers of the driver. -/
inductive Op where
  | rd : Nat → Op
  | wr : Nat → Int → Op
deriving DecidableEq, Repr

/-- Page byte of the register an operation touches. -/
def opPage : Op → Nat
  | Op.rd a => pageOf a
  | Op.wr a _ => pageOf a

/-- State transition and trace of a single operation. -/
def runOp (miso : Nat → Nat) (s : IMUState) : Op → IMUState × List Ev
  | Op.rd a => ((regRead miso s a).2.1, (regRead miso s a).2.2)
  | Op.wr a d => ((regWrite miso s a d).2.1, (regWrite miso s a d).2.2)

/-- State transition and concatenated trace of a sequence of operations. -/
def runOps (miso : Nat → Nat) (s : IMUState) : List Op → IMUState × List Ev
  | [] => (s, [])
  | op :: rest =>
    let r := runOp miso s op
    let r2 := runOps miso r.1 rest
    (r2.1, r.2 ++ r2.2)

/- Byte-arithmetic helper lemmas. -/

theorem lor_low (x y : Nat) (hy : y < 256) : (x <<< 8) ||| y = 256 * x + y := by
  have h : (256 : Nat) = 2 ^ 8 := by norm_num
  rw [Nat.shiftLeft_eq, Nat.mul_comm, h]
  exact (Nat.mul_add_lt_is_or (by omega) x).symm

theorem lor_shiftLeft_distrib (x y n : Nat) :
    (x ||| y) <<< n = (x <<< n) ||| (y <<< n) := by
  apply Nat.eq_of_testBit_eq
  intro i
  simp only [Nat.testBit_shiftLeft, Nat.testBit_lor]
  by_cases h : n ≤ i <;> simp [h]

theorem and255 (x : Nat) : x &&& 255 = x % 256 := by
  have h : (255 : Nat) = 2 ^ 8 - 1 := by norm_num
  rw [h, Nat.and_pow_two_sub_one_eq_mod]

theorem and127 (x : Nat) : x &&& 127 = x % 128 := by
  have h : (127 : Nat) = 2 ^ 7 - 1 := by norm_num
  rw [h, Nat.and_pow_two_sub_one_eq_mod]

set_option maxRecDepth 4000 in
theorem dec128 : ∀ a < 256, (a % 128) ||| 128 = a ||| 128 := by decide

theorem byte_concat (hi lo : Nat) (hlo : lo < 256) :
    (hi <<< 8) ||| (lo &&& 255) = 256 * hi + lo := by
  rw [and255, Nat.mod_eq_of_lt hlo]
  exact lor_low _ _ hlo

theorem lor256 (x : Nat) : (x <<< 8) ||| 256 = (x ||| 1) <<< 8 := by
  have h : (256 : Nat) = 1 <<< 8 := by decide
  rw [h, ← lor_shiftLeft_distrib]

theorem shiftRight8_eq (x : Nat) : x >>> 8 = x / 256 := by
  rw [Nat.shiftRight_eq_div_pow]

theorem offsetOf_lt (a : Nat) : offsetOf a < 256 := Nat.mod_lt _ (by norm_num)

theorem toUInt16_lt (z : Int) : toUInt16 z < 65536 := by
  unfold toUInt16
  omega

/-- Both bytes of lowWord = (((a & 0x7F) | 0x80) << 8) | (d & 0xFF): the
high byte is the in-page offset with the write-indicator bit set, the low
byte is the low data byte. -/
theorem lowWord_bytes (a d : Nat) (ha : a < 256) :
    ((((a &&& 127) ||| 128) <<< 8) ||| (d &&& 255)) >>> 8 = a ||| 128
    ∧ ((((a &&& 127) ||| 128) <<< 8) ||| (d &&& 255)) &&& 255 = d % 256 := by
  rw [and127, dec128 a ha, and255, lor_low _ _ (Nat.mod_lt _ (by norm_num)),
    shiftRight8_eq, and255]
  constructor
  · omega
  · omega

/-- Both bytes of highWord = (lowAddr | 0x100) | ((d >> 8) & 0xFF): the
high byte is the low-frame address byte with bit 0 additionally set, the
low byte is the high data byte. -/
theorem highWord_bytes (a d : Nat) (ha : a < 256) (hd : d < 65536) :
    (((((a &&& 127) ||| 128) <<< 8) ||| 256) ||| ((d >>> 8) &&& 255)) >>> 8
      = (a ||| 128) ||| 1
    ∧ (((((a &&& 127) ||| 128) <<< 8) ||| 256) ||| ((d >>> 8) &&& 255)) &&& 255
      = d / 256 := by
  rw [and127, dec128 a ha, lor256, and255 (d >>> 8), shiftRight8_eq d,
    Nat.mod_eq_of_lt (show d / 256 < 256 by omega),
    lor_low _ _ (show d / 256 < 256 by omega), shiftRight8_eq, and255]
  constructor
  · omega
  · omega

theorem byte_pair (x y : Nat) :
    ((x % 256) <<< 8) ||| ((y % 256) &&& 255) = 256 * (x % 256) + y % 256 :=
  byte_concat _ _ (Nat.mod_lt _ (by norm_num))

theorem countSel_append (t1 t2 : List Ev) :
    countSel (t1 ++ t2) = countSel t1 + countSel t2 := by
  simp [countSel]

/- Per-operation facts shared by the claim theorems. -/

theorem regRead_page (miso : Nat → Nat) (s : IMUState) (a : Nat) :
    ((regRead miso s a).2.1).currentPage = pageOf a := rfl

theorem regWrite_page (miso : Nat → Nat) (s : IMUState) (a : Nat) (d : Int) :
    ((regWrite miso s a d).2.1).currentPage = pageOf a := rfl

theorem sensorRead_page (miso : Nat → Nat) (s : IMUState) :
    ((sensorRead miso s).2.1).currentPage = 0 := rfl

theorem regRead_countSel (miso : Nat → Nat) (s : IMUState) (a : Nat) :
    countSel (regRead miso s a).2.2 =
      if s.currentPage = pageOf a then 0 else 1 := by
  by_cases h : s.currentPage = pageOf a <;>
    simp [regRead, h, countSel, isPageSel]

theorem regWrite_countSel (miso : Nat → Nat) (s : IMUState) (a : Nat) (d : Int) :
    countSel (regWrite miso s a d).2.2 =
      if s.currentPage = pageOf a then 0 else 1 := by
  by_cases h : s.currentPage = pageOf a <;>
    simp [regWrite, h, countSel, isPageSel]

theorem sensorRead_countSel (miso : Nat → Nat) (s : IMUState) :
    countSel (sensorRead miso s).2.2 = if s.currentPage = 0 then 0 else 1 := by
  by_cases h : s.currentPage = 0 <;>
    simp [sensorRead, h, countSel, isPageSel]

theorem regRead_head (miso : Nat → Nat) (s : IMUState) (a : Nat)
    (hne : s.currentPage ≠ pageOf a) :
    ((regRead miso s a).2.2).head? = some (Ev.pageSel (pageOf a)) := by
  simp [regRead, hne]

theorem regRead_selTake (miso : Nat → Nat) (s : IMUState) (a : Nat) :
    ((regRead miso s a).2.2).take
        (if s.currentPage = pageOf a then 0 else 1) =
      (if s.currentPage = pageOf a then [] else [Ev.pageSel (pageOf a)]) := by
  by_cases h : s.currentPage = pageOf a <;> simp [regRead, h]

theorem regWrite_selTake (miso : Nat → Nat) (s : IMUState) (a : Nat)
    (d : Int) :
    ((regWrite miso s a d).2.2).take
        (if s.currentPage = pageOf a then 0 else 1) =
      (if s.currentPage = pageOf a then [] else [Ev.pageSel (pageOf a)]) := by
  by_cases h : s.currentPage = pageOf a <;> simp [regWrite, h]

theorem sensorRead_selTake (miso : Nat → Nat) (s : IMUState) :
    ((sensorRead miso s).2.2).take (if s.currentPage = 0 then 0 else 1) =
      (if s.currentPage = 0 then [] else [Ev.pageSel 0]) := by
  by_cases h : s.currentPage = 0 <;> simp [sensorRead, h]

/-- General trace shape of regWrite, with both frames resolved to their
wire bytes. -/
theorem regWrite_trace (miso : Nat → Nat) (s : IMUState) (regAddr : Nat)
    (regData : Int) :
    (regWrite miso s regAddr regData).2.2 =
      (if s.currentPage = pageOf regAddr then []
       else [Ev.pageSel (pageOf regAddr), Ev.stall stallTime])
      ++ [Ev.frame (offsetOf regAddr ||| 128) (toUInt16 regData % 256),
          Ev.stall stallTime,
          Ev.frame ((offsetOf regAddr ||| 128) ||| 1) (toUInt16 regData / 256),
          Ev.stall stallTime] := by
  have hlow := lowWord_bytes (offsetOf regAddr) (toUInt16 regData)
    (offsetOf_lt regAddr)
  have hhigh := highWord_bytes (offsetOf regAddr) (toUInt16 regData)
    (offsetOf_lt regAddr) (toUInt16_lt regData)
  by_cases h : s.currentPage = pageOf regAddr <;>
    simp [regWrite, h, hlow.1, hlow.2, hhigh.1, hhigh.2]

theorem runOp_page (miso : Nat → Nat) (s : IMUState) (op : Op) :
    ((runOp miso s op).1).currentPage = opPage op := by
  cases op <;> rfl

theorem runOp_countSel (miso : Nat → Nat) (s : IMUState) (op : Op) :
    countSel (runOp miso s op).2 =
      if s.currentPage = opPage op then 0 else 1 := by
  cases op <;>
    simp [runOp, opPage, regRead_countSel, regWrite_countSel]

/-- Once the cached page equals the common page of a sequence, no further
page-select frame is ever issued and the cached page never changes. -/
theorem runOps_steady (miso : Nat → Nat) (p : Nat) :
    ∀ (ops : List Op) (s : IMUState), s.currentPage = p →
      (∀ op ∈ ops, opPage op = p) →
      countSel (runOps miso s ops).2 = 0
      ∧ ((runOps miso s ops).1).currentPage = p := by
  intro ops
  induction ops with
  | nil => intro s hs _; simpa [runOps, countSel] using hs
  | cons op rest ih =>
    intro s hs hall
    have hop : opPage op = p := hall op (by simp)
    have h1 : countSel (runOp miso s op).2 = 0 := by
      rw [runOp_countSel, if_pos (by rw [hs, hop])]
    have h2 : ((runOp miso s op).1).currentPage = p := by
      rw [runOp_page, hop]
    have ihr := ih (runOp miso s op).1 h2 (fun o ho => hall o (by simp [ho]))
    refine ⟨?_, ?_⟩
    · simp [runOps, countSel_append, h1, ihr.1]
    · simp [runOps, ihr.2]

theorem toInt16_bounds (n : Nat) : -32768 ≤ toInt16 n ∧ toInt16 n < 32768 := by
  unfold toInt16
  split <;> omega

/- Claim theorems. -/

/-- C1: for every register address, regRead derives the page and the
in-page offset from the high and low address byte, issues the page-select
exchange (0x80, page) with a stall exactly when the cached page differs,
then clocks the address frame (offset, 0x00) whose two response bytes are
discarded, a stall, the data frame (0x00, 0x00), a stall, and returns the
two bytes received in the data frame assembled high-then-low as a signed
16-bit value, leaving the cached page at the target page. -/
theorem regRead_spec (miso : Nat → Nat) (s : IMUState) (regAddr : Nat) :
    regRead miso s regAddr =
      (toInt16 (256 * (miso ((if s.currentPage = pageOf regAddr then s.misoIdx
                              else s.misoIdx + 2) + 2) % 256)
                + miso ((if s.currentPage = pageOf regAddr then s.misoIdx
                         else s.misoIdx + 2) + 3) % 256),
       ⟨pageOf regAddr,
        (if s.currentPage = pageOf regAddr then s.misoIdx
         else s.misoIdx + 2) + 4⟩,
       (if s.currentPage = pageOf regAddr then []
        else [Ev.pageSel (pageOf regAddr), Ev.stall stallTime])
         ++ [Ev.frame (offsetOf regAddr) 0, Ev.stall stallTime,
             Ev.frame 0 0, Ev.stall stallTime]) := by
  by_cases h : s.currentPage = pageOf regAddr <;>
    simp [regRead, h, byte_pair]

/-- C2: the page-cache invariant.  The cached page is 0 at construction; a
page-select frame, whose wire bytes are (0x80, page), is issued if and only
if the cached page differs from the target page, and then as the very
first event of the operation, before any in-page frame; after regRead and
regWrite the cached page equals the page of the register just accessed,
and after sensorRead it equals 0. -/
theorem pageCache_invariant (miso : Nat → Nat) (s : IMUState) (a : Nat)
    (d : Int) :
    initialState.currentPage = 0
    ∧ wireBytes (Ev.pageSel (pageOf a)) = [128, pageOf a]
    ∧ ((regRead miso s a).2.1).currentPage = pageOf a
    ∧ countSel ((regRead miso s a).2.2) =
        (if s.currentPage = pageOf a then 0 else 1)
    ∧ ((regRead miso s a).2.2).take
          (if s.currentPage = pageOf a then 0 else 1) =
        (if s.currentPage = pageOf a then [] else [Ev.pageSel (pageOf a)])
    ∧ ((regWrite miso s a d).2.1).currentPage = pageOf a
    ∧ countSel ((regWrite miso s a d).2.2) =
        (if s.currentPage = pageOf a then 0 else 1)
    ∧ ((regWrite miso s a d).2.2).take
          (if s.currentPage = pageOf a then 0 else 1) =
        (if s.currentPage = pageOf a then [] else [Ev.pageSel (pageOf a)])
    ∧ ((sensorRead miso s).2.1).currentPage = 0
    ∧ countSel ((sensorRead miso s).2.2) = (if s.currentPage = 0 then 0 else 1)
    ∧ ((sensorRead miso s).2.2).take (if s.currentPage = 0 then 0 else 1) =
        (if s.currentPage = 0 then [] else [Ev.pageSel 0]) :=
  ⟨rfl, rfl, regRead_page miso s a, regRead_countSel miso s a,
   regRead_selTake miso s a, regWrite_page miso s a d,
   regWrite_countSel miso s a d, regWrite_selTake miso s a d,
   sensorRead_page miso s, sensorRead_countSel miso s,
   sensorRead_selTake miso s⟩

/-- C3 counterexample: at addr = 0x0001 (odd in-page offset 1) and data 0,
the high frame's address byte is 0x81, not 0x80|(offset+1) = 0x82 as the
claim predicts for every address. -/
theorem regWrite_highFrame_cex :
    ((regWrite (fun _ => 0) initialState 1 0).2.2).get? 2
      ≠ some (Ev.frame 130 0) := by decide

/-- C3 (amended): after page selection regWrite sends exactly two framed
exchanges, low frame (0x80|offset, data & 0xFF) then high frame
((0x80|offset)|0x01, (data >> 8) & 0xFF) — the high-frame address byte is
the low one with bit 0 set, which equals 0x80|(offset+1) exactly when the
offset is even; in particular regWrite(FNCTIO_CTRL = 0x0306, 0x0C) yields
the byte pairs (0x86, 0x0C) then (0x87, 0x00). -/
theorem regWrite_frames (miso : Nat → Nat) (s : IMUState) (regAddr : Nat)
    (regData : Int) :
    ((regWrite miso s regAddr regData).2.2 =
      (if s.currentPage = pageOf regAddr then []
       else [Ev.pageSel (pageOf regAddr), Ev.stall stallTime])
      ++ [Ev.frame (offsetOf regAddr ||| 128) (toUInt16 regData % 256),
          Ev.stall stallTime,
          Ev.frame ((offsetOf regAddr ||| 128) ||| 1) (toUInt16 regData / 256),
          Ev.stall stallTime])
    ∧ (regWrite miso initialState FNCTIO_CTRL 12).2.2 =
        [Ev.pageSel 3, Ev.stall 5, Ev.frame 134 12, Ev.stall 5,
         Ev.frame 135 0, Ev.stall 5] := by
  constructor
  · exact regWrite_trace miso s regAddr regData
  · rw [regWrite_trace]
    decide

/-- C4: sensorRead always returns exactly 9 signed values, positionally in
the fixed burst order (the nine words assembled from the 18 bytes received
after the priming frame, i.e. position k carries the register whose
address was clocked out in burst frame k), always establishes page 0 first
with a page-select issued if and only if the cached page differs from 0,
and leaves the cached page at 0. -/
theorem sensorRead_spec (miso : Nat → Nat) (s : IMUState) (jj : Nat)
    (hjj : jj = if s.currentPage = 0 then s.misoIdx else s.misoIdx + 2) :
    (sensorRead miso s).1 =
      [toInt16 (256 * (miso (jj + 2) % 256) + miso (jj + 3) % 256),
       toInt16 (256 * (miso (jj + 4) % 256) + miso (jj + 5) % 256),
       toInt16 (256 * (miso (jj + 6) % 256) + miso (jj + 7) % 256),
       toInt16 (256 * (miso (jj + 8) % 256) + miso (jj + 9) % 256),
       toInt16 (256 * (miso (jj + 10) % 256) + miso (jj + 11) % 256),
       toInt16 (256 * (miso (jj + 12) % 256) + miso (jj + 13) % 256),
       toInt16 (256 * (miso (jj + 14) % 256) + miso (jj + 15) % 256),
       toInt16 (256 * (miso (jj + 16) % 256) + miso (jj + 17) % 256),
       toInt16 (256 * (miso (jj + 18) % 256) + miso (jj + 19) % 256)]
    ∧ (sensorRead miso s).1.length = 9
    ∧ (sensorRead miso s).2.2 =
        (if s.currentPage = 0 then [] else [Ev.pageSel 0, Ev.stall 10])
        ++ [Ev.frame DIAG_STS 0, Ev.stall 10,
            Ev.frame ALM_STS 0, Ev.stall 10,
            Ev.frame X_GYRO_OUT 0, Ev.stall 10,
            Ev.frame Y_GYRO_OUT 0, Ev.stall 10,
            Ev.frame Z_GYRO_OUT 0, Ev.stall 10,
            Ev.frame X_ACCL_OUT 0, Ev.stall 10,
            Ev.frame Y_ACCL_OUT 0, Ev.stall 10,
            Ev.frame Z_ACCL_OUT 0, Ev.stall 10,
            Ev.frame TEMP_OUT 0, Ev.stall 10,
            Ev.frame 0 0, Ev.stall 10]
    ∧ countSel ((sensorRead miso s).2.2) = (if s.currentPage = 0 then 0 else 1)
    ∧ ((sensorRead miso s).2.1).currentPage = 0 := by
  subst hjj
  refine ⟨?_, ?_, ?_, sensorRead_countSel miso s, sensorRead_page miso s⟩
  · by_cases h : s.currentPage = 0 <;>
      simp [sensorRead, h, byte_pair, Nat.add_assoc]
  · by_cases h : s.currentPage = 0 <;> simp [sensorRead, h]
  · by_cases h : s.currentPage = 0 <;> simp [sensorRead, h]

/-- C4 witness: the burst read from the fresh state over an all-zero bus
returns a 9-element sequence. -/
theorem sensorRead_spec_witness :
    (sensorRead (fun _ => 0) initialState).1.length = 9 :=
  (sensorRead_spec (fun _ => 0) initialState 0 (by simp [initialState])).2.1

/-- C5 counterexample: two reads of page-0 registers from the freshly
constructed transport issue zero page-select frames, not exactly one as
the claim states for every same-page sequence. -/
theorem samePage_zeroSelect_cex :
    countSel (runOps (fun _ => 0) initialState
      [Op.rd DIAG_STS, Op.rd TEMP_OUT]).2 ≠ 1 := by decide

/-- C5 (amended): for every nonempty sequence of reads/writes confined to
one page p, started from the freshly constructed transport, at most one
page-select frame is issued over the whole sequence regardless of its
length: exactly one when p differs from the initial page 0, and none when
p = 0. -/
theorem samePage_select_count (miso : Nat → Nat) (p : Nat) (ops : List Op)
    (hne : ops ≠ []) (hall : ∀ op ∈ ops, opPage op = p) :
    countSel (runOps miso initialState ops).2 = if p = 0 then 0 else 1 := by
  cases ops with
  | nil => exact absurd rfl hne
  | cons op rest =>
    have hop : opPage op = p := hall op (by simp)
    have h1 : countSel (runOp miso initialState op).2 =
        if p = 0 then 0 else 1 := by
      rw [runOp_countSel, hop]
      by_cases hp : p = 0 <;> simp [initialState, hp, eq_comm]
    have h2 : ((runOp miso initialState op).1).currentPage = p := by
      rw [runOp_page, hop]
    have hrest := runOps_steady miso p rest (runOp miso initialState op).1 h2
      (fun o ho => hall o (by simp [ho]))
    simp [runOps, countSel_append, h1, hrest.1]

/-- C5 witness: a read and a write both on page 3 issue exactly one
page-select frame. -/
theorem samePage_select_count_witness :
    countSel (runOps (fun _ => 0) initialState
      [Op.rd FNCTIO_CTRL, Op.wr DEC_RATE 0]).2 = 1 := by
  have h := samePage_select_count (fun _ => 0) 3
    [Op.rd FNCTIO_CTRL, Op.wr DEC_RATE 0] (by simp) (by decide)
  simpa using h

/-- C6: when the page bytes of a1 and a2 differ, reading a1 then a2 issues
a page-select frame as the very first event of the a2 read (hence before
its address frame), and exactly one; reading a1 twice issues no
page-select in the second read. -/
theorem pageSwitch_spec (miso : Nat → Nat) (s : IMUState) (a1 a2 : Nat)
    (h : pageOf a1 ≠ pageOf a2) :
    (((regRead miso ((regRead miso s a1).2.1) a2).2.2).head? =
        some (Ev.pageSel (pageOf a2))
      ∧ countSel ((regRead miso ((regRead miso s a1).2.1) a2).2.2) = 1)
    ∧ countSel ((regRead miso ((regRead miso s a1).2.1) a1).2.2) = 0 := by
  have h1 : ((regRead miso s a1).2.1).currentPage = pageOf a1 :=
    regRead_page miso s a1
  refine ⟨⟨?_, ?_⟩, ?_⟩
  · exact regRead_head miso _ a2 (by rw [h1]; exact h)
  · rw [regRead_countSel, if_neg (by rw [h1]; exact h)]
  · rw [regRead_countSel, if_pos h1]

/-- C6 witness: reading DIAG_STS (page 0) then FNCTIO_CTRL (page 3) from
the fresh state issues the page-select at the head of the second read, and
re-reading DIAG_STS issues none. -/
theorem pageSwitch_spec_witness :
    (((regRead (fun _ => 0) ((regRead (fun _ => 0) initialState
          DIAG_STS).2.1) FNCTIO_CTRL).2.2).head? =
        some (Ev.pageSel (pageOf FNCTIO_CTRL))
      ∧ countSel ((regRead (fun _ => 0) ((regRead (fun _ => 0) initialState
          DIAG_STS).2.1) FNCTIO_CTRL).2.2) = 1)
    ∧ countSel ((regRead (fun _ => 0) ((regRead (fun _ => 0) initialState
        DIAG_STS).2.1) DIAG_STS).2.2) = 0 :=
  pageSwitch_spec (fun _ => 0) initialState DIAG_STS FNCTIO_CTRL (by decide)

/-- C7 counterexample: the burst trace of sensorRead contains 10 framed
exchanges (not counting the page select), not 9 as the claim counts. -/
theorem burst_count_cex :
    countFrames ((sensorRead (fun _ => 0) initialState).2.2) ≠ 9 := by decide

/-- C7 (amended): sensorRead issues one framed exchange priming the
pipeline with the DIAG_STS address, then 9 further framed exchanges — the
first 8 clock out the next register address while clocking in the previous
register data, and a last one clocks out a dummy 0x00 address to collect
the final register — 10 burst frames in total, page-select frames not
counted. -/
theorem burst_frames_spec (miso : Nat → Nat) (s : IMUState) :
    framesOf ((sensorRead miso s).2.2) =
      [Ev.frame DIAG_STS 0, Ev.frame ALM_STS 0, Ev.frame X_GYRO_OUT 0,
       Ev.frame Y_GYRO_OUT 0, Ev.frame Z_GYRO_OUT 0, Ev.frame X_ACCL_OUT 0,
       Ev.frame Y_ACCL_OUT 0, Ev.frame Z_ACCL_OUT 0, Ev.frame TEMP_OUT 0,
       Ev.frame 0 0]
    ∧ countFrames ((sensorRead miso s).2.2) = 10 := by
  constructor
  · by_cases h : s.currentPage = 0 <;>
      simp [sensorRead, h, framesOf, isFrame]
  · by_cases h : s.currentPage = 0 <;>
      simp [sensorRead, h, countFrames, framesOf, isFrame]

/-- C8: the five scaling functions are total deterministic functions of
the raw sample alone, computing raw × 0.005, raw × 0.5,
raw × 0.01429 + 25, raw × 0.022 and raw × 6.104, with the documented
sample points. -/
theorem scaling_spec (raw : Int) :
    gyroScale raw = raw * (5 / 1000)
    ∧ accelScale raw = raw * (1 / 2)
    ∧ tempScale raw = raw * (1429 / 100000) + 25
    ∧ deltaAngleScale raw = raw * (22 / 1000)
    ∧ deltaVelocityScale raw = raw * (6104 / 1000)
    ∧ gyroScale 100 = 1 / 2
    ∧ gyroScale (-100) = -(1 / 2)
    ∧ tempScale 0 = 25
    ∧ tempScale 1000 = 3929 / 100 := by
  refine ⟨?_, ?_, ?_, ?_, ?_, ?_, ?_, ?_, ?_⟩ <;>
    norm_num [gyroScale, accelScale, tempScale, deltaAngleScale,
      deltaVelocityScale]

/-- C9: no transport operation reports failure: regWrite returns 1 for
every address and datum and issues exactly its two write frames with no
read-back, resetDUT returns 1, regRead always returns an in-range signed
16-bit value, and sensorRead always returns 9 values. -/
theorem no_failure_spec (miso : Nat → Nat) (s : IMUState) (a : Nat) (d : Int)
    (ms : Nat) :
    (regWrite miso s a d).1 = 1
    ∧ countFrames ((regWrite miso s a d).2.2) = 2
    ∧ (resetDUT ms).1 = 1
    ∧ (-32768 ≤ (regRead miso s a).1 ∧ (regRead miso s a).1 < 32768)
    ∧ (sensorRead miso s).1.length = 9 := by
  refine ⟨rfl, ?_, rfl, toInt16_bounds _, ?_⟩
  · by_cases h : s.currentPage = pageOf a <;>
      simp [regWrite, h, countFrames, framesOf, isFrame]
  · by_cases h : s.currentPage = 0 <;> simp [sensorRead, h]

/-- C10: evaluation of resetDUT at ms = 100: the reset line is driven low,
held low for a fixed 500 microseconds, driven high, and only then does the
caller-specified 100 ms delay elapse — the pin is not held low for the
caller-specified duration. -/
theorem resetDUT_at_100 :
    resetDUT 100 = (1, [Ev.rstWrite false, Ev.stall 500, Ev.rstWrite true,
      Ev.delayMs 100]) := rfl

end ADIS16490
